import Mathlib

/-!
Shallow embedding of the libhal `can_router` core (src/include/libhal-canrouter/can_router.hpp
and the implementation translation unit).  Handlers are modelled as functions from a received
message to the list of observable events they emit; the default handler `noop` emits none.
The `static_list` Route Store is an external collaborator (libhal-util) not present in this
repository; it is modelled from the spec's description of its interface.
-/

set_option maxRecDepth 4000

/-- A CAN frame: `hal::can::message_t` with its identifier and payload bytes.
Only the identifier participates in routing. -/
structure message_t where
  id : Nat
  payload : List Nat := []
deriving DecidableEq

/-- `can_router::message_handler`: a callback taking one frame and returning nothing;
modelled as the list of observable events (of type `ε`) the callback emits. -/
def message_handler (ε : Type) : Type := message_t → List ε

/-- `can_router::noop`: the default handler, which does nothing with the message. -/
def noop {ε : Type} : message_handler ε := fun _ => []

/-- `can_router::route`: an identifier paired with a handler; the handler
defaults to `noop`, as in the C++ struct. -/
structure route (ε : Type) where
  id : Nat := 0
  handler : message_handler ε := noop

/-- The error raised by route registration when the fixed-size store is full. -/
inductive registration_error where
  | CapacityExceeded
deriving DecidableEq

/-- Modelled from the spec: the fixed-capacity Route Store collaborator
(`static_list` from libhal-util, not under src/).  `entries` is the list of
(handle id, value) pairs in insertion order; `capacity` is the fixed maximum
chosen at configuration time; `next_handle` numbers the handles. -/
structure static_list (α : Type) where
  capacity : Nat
  next_handle : Nat
  entries : List (Nat × α)

/-- The values stored in the list, in insertion order (what iteration visits). -/
def static_list.values {α : Type} (l : static_list α) : List α :=
  l.entries.map Prod.snd

/-- Modelled from the spec: `push_back(value) -> Handle` appends in O(1) and
fails with `CapacityExceeded` when the capacity is exhausted. -/
def static_list.push_back {α : Type} (l : static_list α) (v : α) :
    Except registration_error (Nat × static_list α) :=
  if l.entries.length < l.capacity then
    .ok (l.next_handle,
      { l with next_handle := l.next_handle + 1,
               entries := l.entries ++ [(l.next_handle, v)] })
  else
    .error .CapacityExceeded

/-- Modelled from the spec: destroying a handle removes exactly the corresponding
entry, without relocating the other entries. -/
def static_list.erase_handle {α : Type} (l : static_list α) (h : Nat) : static_list α :=
  { l with entries := l.entries.filter (fun e => e.1 != h) }

/-- Modelled from the spec: moving the list as a whole transfers every entry
(and every outstanding handle's validity) to the new owner, leaving the
moved-from list empty. -/
def static_list.moved {α : Type} (l : static_list α) : static_list α :=
  { l with entries := [] }

/-- The router: a Route Store owned by value plus a pointer to the single CAN
peripheral (`some ()` when bound, `none` when detached / `nullptr`). -/
structure can_router (ε : Type) where
  m_handlers : static_list (route ε)
  m_can : Option Unit := none

/-- The body of `can_router::operator()(const can::message_t&)`: walk the
handlers in insertion order; on the first entry whose `id` equals the message
id, invoke that entry's handler with the message and return.  The result is
the single invocation the loop performs, if any: the loop returns immediately
after the first match, so at most one handler ever runs per frame. -/
def canRouterDispatch {ε : Type} (handlers : List (route ε)) (p_message : message_t) :
    Option (message_handler ε × message_t) :=
  match handlers with
  | [] => none
  | r :: rest =>
    if p_message.id = r.id then some (r.handler, p_message)
    else canRouterDispatch rest p_message

/-- `can_router::operator()`: dispatch over the router's own store.  Note that
it reads only `m_handlers`; `m_can` is never accessed on the dispatch path. -/
def can_router.call {ε : Type} (self : can_router ε) (p_message : message_t) :
    Option (message_handler ε × message_t) :=
  canRouterDispatch self.m_handlers.values p_message

/-- The observable events produced by the (at most one) handler invocation a
dispatch performs. -/
def invocationEffects {ε : Type} : Option (message_handler ε × message_t) → List ε
  | none => []
  | some (h, m) => h m

/-- One-argument `can_router::add_message_callback(p_id)`: appends
`route{.id = p_id}` (whose handler defaults to `noop`) to the store. -/
def can_router.add_message_callback {ε : Type} (self : can_router ε) (p_id : Nat) :
    Except registration_error (Nat × can_router ε) :=
  match self.m_handlers.push_back { id := p_id } with
  | .error e => .error e
  | .ok (h, l) => .ok (h, { self with m_handlers := l })

/-- Two-argument `can_router::add_message_callback(p_id, p_handler)`: appends
`route{.id = p_id, .handler = p_handler}` to the store. -/
def can_router.add_message_callback_handler {ε : Type} (self : can_router ε) (p_id : Nat)
    (p_handler : message_handler ε) : Except registration_error (Nat × can_router ε) :=
  match self.m_handlers.push_back { id := p_id, handler := p_handler } with
  | .error e => .error e
  | .ok (h, l) => .ok (h, { self with m_handlers := l })

/- Helper lemmas about the dispatch loop. -/

theorem dispatch_none_of_no_match {ε : Type} (hs : List (route ε)) (m : message_t)
    (h : ∀ r ∈ hs, r.id ≠ m.id) : canRouterDispatch hs m = none := by
  induction hs with
  | nil => rfl
  | cons r rest ih =>
    have hr : r.id ≠ m.id := h r (List.mem_cons_self r rest)
    simp only [canRouterDispatch]
    rw [if_neg (fun e => hr e.symm)]
    exact ih (fun x hx => h x (List.mem_cons_of_mem r hx))

theorem dispatch_cons_match {ε : Type} (r : route ε) (rest : List (route ε)) (m : message_t)
    (h : m.id = r.id) : canRouterDispatch (r :: rest) m = some (r.handler, m) := by
  simp only [canRouterDispatch]
  rw [if_pos h]

theorem dispatch_append_skip {ε : Type} (hs1 hs2 : List (route ε)) (m : message_t)
    (h : ∀ r ∈ hs1, r.id ≠ m.id) :
    canRouterDispatch (hs1 ++ hs2) m = canRouterDispatch hs2 m := by
  induction hs1 with
  | nil => rfl
  | cons r rest ih =>
    have hr : r.id ≠ m.id := h r (List.mem_cons_self r rest)
    simp only [List.cons_append, canRouterDispatch]
    rw [if_neg (fun e => hr e.symm)]
    exact ih (fun x hx => h x (List.mem_cons_of_mem r hx))

theorem dispatch_first_match_aux {ε : Type} (m : message_t) :
    ∀ (hs : List (route ε)) (i : Nat) (hi : i < hs.length),
      hs[i].id = m.id → (∀ r ∈ hs.take i, r.id ≠ m.id) →
      canRouterDispatch hs m = some (hs[i].handler, m) := by
  intro hs
  induction hs with
  | nil => intro i hi; exact absurd hi (by simp)
  | cons r rest ih =>
    intro i hi hmatch hbefore
    cases i with
    | zero =>
      simp only [List.getElem_cons_zero] at hmatch ⊢
      exact dispatch_cons_match r rest m hmatch.symm
    | succ n =>
      have hr : r.id ≠ m.id := by
        apply hbefore
        simp [List.take_succ_cons]
      simp only [canRouterDispatch]
      rw [if_neg (fun e => hr e.symm)]
      have hn : n < rest.length := by
        simpa [Nat.succ_lt_succ_iff] using hi
      have hmatch2 : rest[n].id = m.id := by
        simpa using hmatch
      have hbefore2 : ∀ x ∈ rest.take n, x.id ≠ m.id := by
        intro x hx
        exact hbefore x (by simp [List.take_succ_cons, hx])
      simpa using ih n hn hmatch2 hbefore2

/-- C1: dispatching a frame scans the store in insertion order; the first route
whose identifier equals the frame's identifier has its handler invoked with the
frame, and that is the only invocation performed — the loop returns immediately,
so no later route (including later routes with the same identifier) runs. -/
theorem C1_dispatch_first_match {ε : Type} (self : can_router ε) (m : message_t)
    (i : Nat) (hi : i < self.m_handlers.values.length)
    (hmatch : (self.m_handlers.values)[i].id = m.id)
    (hbefore : ∀ r ∈ self.m_handlers.values.take i, r.id ≠ m.id) :
    can_router.call self m = some ((self.m_handlers.values)[i].handler, m) :=
  dispatch_first_match_aux m self.m_handlers.values i hi hmatch hbefore

/-- Witness for C1: a store holding id 6 then two id-5 routes; a frame with id 5
invokes exactly the first id-5 handler (index 1), not the later one. -/
theorem C1_dispatch_first_match_witness :
    can_router.call
      { m_handlers :=
          ⟨4, 3, [(0, { id := 6, handler := fun _ => [1] }),
                  (1, { id := 5, handler := fun _ => [2] }),
                  (2, { id := 5, handler := fun _ => [3] })]⟩,
        m_can := some () }
      { id := 5 } =
    some ((static_list.values
      (⟨4, 3, [(0, { id := 6, handler := fun _ => [1] }),
               (1, { id := 5, handler := fun _ => [2] }),
               (2, { id := 5, handler := fun _ => [3] })]⟩ :
        static_list (route Nat)))[1].handler, { id := 5 }) := by
  apply C1_dispatch_first_match
  · rfl
  · intro r hr
    simp only [static_list.values, List.map_cons, List.take_succ_cons, List.take_zero,
      List.mem_cons, List.not_mem_nil, or_false] at hr
    subst hr
    decide

/-- C2: a frame whose identifier matches no route in the store invokes no
handler; dispatch returns normally with no invocation (silent drop). -/
theorem C2_unmatched_frame_dropped {ε : Type} (self : can_router ε) (m : message_t)
    (h : ∀ r ∈ self.m_handlers.values, r.id ≠ m.id) :
    can_router.call self m = none :=
  dispatch_none_of_no_match self.m_handlers.values m h

/-- Witness for C2: a frame with id 9 against a store holding only id 6. -/
theorem C2_unmatched_frame_dropped_witness :
    can_router.call
      { m_handlers := ⟨4, 1, [(0, ({ id := 6 } : route Nat))]⟩, m_can := some () }
      { id := 9 } = none := by
  apply C2_unmatched_frame_dropped
  intro r hr
  simp only [static_list.values, List.map_cons, List.map_nil, List.mem_cons,
    List.not_mem_nil, or_false] at hr
  subst hr
  decide

/-- A freshly constructed router (the constructor binds the peripheral and
starts with an empty store of the configured capacity). -/
def can_router.create {ε : Type} (cap : Nat) : can_router ε :=
  { m_handlers := ⟨cap, 0, []⟩, m_can := some () }

/-- A sequence of one-argument registration calls, collecting the returned
handles; stops at the first failure. -/
def can_router.addAll {ε : Type} (self : can_router ε) (ids : List Nat) :
    Except registration_error (can_router ε × List Nat) :=
  match ids with
  | [] => .ok (self, [])
  | i :: rest =>
    match self.add_message_callback i with
    | .error e => .error e
    | .ok (h, s2) =>
      match can_router.addAll s2 rest with
      | .error e => .error e
      | .ok (s3, hs) => .ok (s3, h :: hs)

theorem add_message_callback_ok {ε : Type} (self : can_router ε) (i : Nat)
    (h : self.m_handlers.entries.length < self.m_handlers.capacity) :
    self.add_message_callback i =
      .ok (self.m_handlers.next_handle,
        { self with m_handlers :=
            { self.m_handlers with
              next_handle := self.m_handlers.next_handle + 1,
              entries := self.m_handlers.entries ++ [(self.m_handlers.next_handle, { id := i })] } }) := by
  simp [can_router.add_message_callback, static_list.push_back, if_pos h]

theorem add_message_callback_full {ε : Type} (self : can_router ε) (i : Nat)
    (h : ¬ self.m_handlers.entries.length < self.m_handlers.capacity) :
    self.add_message_callback i = .error .CapacityExceeded := by
  simp [can_router.add_message_callback, static_list.push_back, if_neg h]

theorem addAll_ok {ε : Type} (ids : List Nat) :
    ∀ self : can_router ε,
      self.m_handlers.entries.length + ids.length ≤ self.m_handlers.capacity →
      ∃ s2 hs, can_router.addAll self ids = .ok (s2, hs) ∧
        hs.length = ids.length ∧
        s2.m_handlers.entries.length = self.m_handlers.entries.length + ids.length ∧
        s2.m_handlers.capacity = self.m_handlers.capacity ∧
        s2.m_can = self.m_can := by
  induction ids with
  | nil =>
    intro self _
    exact ⟨self, [], rfl, rfl, by simp, rfl, rfl⟩
  | cons i rest ih =>
    intro self hcap
    have hlt : self.m_handlers.entries.length < self.m_handlers.capacity := by
      simp only [List.length_cons] at hcap
      omega
    have hstep := add_message_callback_ok self i hlt
    set s2 : can_router ε :=
      { self with m_handlers :=
          { self.m_handlers with
            next_handle := self.m_handlers.next_handle + 1,
            entries := self.m_handlers.entries ++ [(self.m_handlers.next_handle, { id := i })] } }
      with hs2
    have hlen2 : s2.m_handlers.entries.length = self.m_handlers.entries.length + 1 := by
      simp [hs2]
    have hcap2 : s2.m_handlers.entries.length + rest.length ≤ s2.m_handlers.capacity := by
      simp only [hlen2, hs2]
      simp only [List.length_cons] at hcap
      omega
    obtain ⟨s3, hs, hrun, hhs, hlen3, hcap3, hcan3⟩ := ih s2 hcap2
    refine ⟨s3, self.m_handlers.next_handle :: hs, ?_, ?_, ?_, ?_, ?_⟩
    · simp only [can_router.addAll, hstep, hrun]
    · simp [hhs]
    · rw [hlen3, hlen2]
      simp [List.length_cons]
      omega
    · rw [hcap3]
    · rw [hcan3]

/-- C3: every sequence of registration calls of length at most the store's
capacity succeeds, each call returning a handle; when the sequence exactly fills
the store, the next registration fails with `CapacityExceeded` — a surfaced
error, not a silent truncation. -/
theorem C3_capacity {ε : Type} (c : Nat) (ids : List Nat) (id2 : Nat)
    (hle : ids.length ≤ c) :
    ∃ s2 hs, can_router.addAll (can_router.create c : can_router ε) ids = .ok (s2, hs) ∧
      hs.length = ids.length ∧
      (ids.length = c → s2.add_message_callback id2 = .error .CapacityExceeded) := by
  have hstart : (can_router.create c : can_router ε).m_handlers.entries.length + ids.length ≤
      (can_router.create c : can_router ε).m_handlers.capacity := by
    simpa [can_router.create] using hle
  obtain ⟨s2, hs, hrun, hhs, hlen, hcap, _⟩ := addAll_ok ids (can_router.create c) hstart
  refine ⟨s2, hs, hrun, hhs, ?_⟩
  intro hfull
  apply add_message_callback_full
  rw [hlen, hcap]
  simp [can_router.create, hfull]

/-- Witness for C3: capacity 2; registering ids 7 and 8 succeeds with two
handles; a third registration fails with `CapacityExceeded`. -/
theorem C3_capacity_witness :
    ∃ s2 hs, can_router.addAll (can_router.create 2 : can_router Nat) [7, 8] = .ok (s2, hs) ∧
      hs.length = ([7, 8] : List Nat).length ∧
      (([7, 8] : List Nat).length = 2 → s2.add_message_callback 9 = .error .CapacityExceeded) :=
  C3_capacity 2 [7, 8] 9 (by decide)

/-- The CAN peripheral's single receive-callback slot (`hal::can::on_receive`):
either a reference to a router instance (identified by `ρ`) — the effect of
`on_receive(std::ref(*this))` — or the no-op handler installed by the
destructor. -/
inductive canCallback (ρ : Type) where
  | ref : ρ → canCallback ρ
  | noop : canCallback ρ
deriving DecidableEq

/-- The fault produced by dereferencing a null `m_can` pointer. -/
inductive move_fault where
  | null_dereference
deriving DecidableEq

/-- `can_router::operator=(can_router&&)`: `m_handlers = std::move(p_other.m_handlers)`
(the whole store transfers, the source list is left empty), `m_can = p_other.m_can`,
`m_can->on_receive(std::ref(*this))` (a null dereference when the source was
detached), then `p_other.m_can = nullptr`.  Returns the new destination state,
the new source state, and the peripheral's new callback slot.  `self`'s previous
state is discarded, as in the code.  `self_id` is the destination's object
identity, captured by `std::ref(*this)`. -/
def can_router.moveAssign {ε ρ : Type} (self_id : ρ) (self p_other : can_router ε)
    (periph : canCallback ρ) :
    Except move_fault (can_router ε × can_router ε × canCallback ρ) :=
  match self, p_other.m_can with
  | _, none => .error .null_dereference
  | _, some u =>
    .ok ({ m_handlers := p_other.m_handlers, m_can := some u },
         { m_handlers := p_other.m_handlers.moved, m_can := none },
         .ref self_id)

/-- `can_router::can_router(can_router&&)`: a fresh instance (default members:
empty store, null `m_can`) that delegates to the move-assignment operator via
`*this = std::move(p_other)`. -/
def can_router.move_ctor {ε ρ : Type} (self_id : ρ) (p_other : can_router ε)
    (periph : canCallback ρ) :
    Except move_fault (can_router ε × can_router ε × canCallback ρ) :=
  can_router.moveAssign self_id { m_handlers := ⟨0, 0, []⟩, m_can := none } p_other periph

/-- `can_router::~can_router()`: `if (m_can) { m_can->on_receive(noop); }` —
an attached instance resets the peripheral's receive slot to the no-op handler;
a detached instance leaves the slot untouched. -/
def can_router.destruct {ε ρ : Type} (self : can_router ε) (periph : canCallback ρ) :
    canCallback ρ :=
  match self.m_can with
  | some _ => .noop
  | none => periph

/-- C4: move assignment from an attached source transfers the entire Route
Store unchanged (every entry's handle id, route identifier and handler) to the
destination, installs the destination's identity as the peripheral's receive
callback, and nulls the source's peripheral pointer so that destroying the
source afterwards leaves the peripheral's callback slot untouched; move
construction is definitionally the move assignment into a default-initialized
instance. -/
theorem C4_move_transfers {ε ρ : Type} (self_id : ρ) (self p_other : can_router ε)
    (periph : canCallback ρ) (h : p_other.m_can = some ()) :
    can_router.moveAssign self_id self p_other periph =
      .ok ({ m_handlers := p_other.m_handlers, m_can := some () },
           { m_handlers := p_other.m_handlers.moved, m_can := none },
           .ref self_id)
    ∧ can_router.destruct
        ({ m_handlers := p_other.m_handlers.moved, m_can := none } : can_router ε) periph =
        periph
    ∧ can_router.move_ctor self_id p_other periph =
        can_router.moveAssign self_id
          ({ m_handlers := ⟨0, 0, []⟩, m_can := none } : can_router ε) p_other periph := by
  refine ⟨?_, rfl, rfl⟩
  simp [can_router.moveAssign, h]

/-- Witness for C4 at a concrete attached source holding one route. -/
theorem C4_move_transfers_witness :
    can_router.moveAssign (2 : Nat)
        ({ m_handlers := ⟨3, 0, []⟩, m_can := some () } : can_router Nat)
        { m_handlers := ⟨3, 1, [(0, { id := 5 })]⟩, m_can := some () }
        (.ref 1) =
      .ok ({ m_handlers := ⟨3, 1, [(0, { id := 5 })]⟩, m_can := some () },
           { m_handlers := static_list.moved ⟨3, 1, [(0, { id := 5 })]⟩, m_can := none },
           .ref 2)
    ∧ can_router.destruct
        ({ m_handlers := static_list.moved ⟨3, 1, [(0, ({ id := 5 } : route Nat))]⟩,
           m_can := none } : can_router Nat) (.ref (1 : Nat)) = .ref 1
    ∧ can_router.move_ctor (2 : Nat)
        ({ m_handlers := ⟨3, 1, [(0, { id := 5 })]⟩, m_can := some () } : can_router Nat)
        (.ref 1) =
        can_router.moveAssign (2 : Nat)
          ({ m_handlers := ⟨0, 0, []⟩, m_can := none } : can_router Nat)
          { m_handlers := ⟨3, 1, [(0, { id := 5 })]⟩, m_can := some () }
          (.ref 1) :=
  C4_move_transfers 2
    { m_handlers := ⟨3, 0, []⟩, m_can := some () }
    { m_handlers := ⟨3, 1, [(0, { id := 5 })]⟩, m_can := some () }
    (.ref 1) rfl

/-- C5: destroying an attached router resets the peripheral's receive slot to
the no-op handler — which references no router instance — while destroying a
detached (moved-from) router leaves the peripheral's slot exactly as it was. -/
theorem C5_destructor {ε ρ : Type} (self : can_router ε) (periph : canCallback ρ) :
    (self.m_can = some () →
       can_router.destruct self periph = .noop ∧
       ∀ r : ρ, (canCallback.noop : canCallback ρ) ≠ .ref r)
    ∧ (self.m_can = none → can_router.destruct self periph = periph) := by
  constructor
  · intro h
    refine ⟨?_, fun r hr => by cases hr⟩
    simp [can_router.destruct, h]
  · intro h
    simp [can_router.destruct, h]

/-- Witness for C5: an attached router clears the slot to `noop` (which is not
a reference to instance 7); a detached one leaves `.ref 7` installed. -/
theorem C5_destructor_witness :
    can_router.destruct
        ({ m_handlers := ⟨1, 0, []⟩, m_can := some () } : can_router Nat)
        (.ref (7 : Nat)) = .noop
    ∧ (canCallback.noop : canCallback Nat) ≠ .ref 7
    ∧ can_router.destruct
        ({ m_handlers := ⟨1, 0, []⟩, m_can := none } : can_router Nat)
        (.ref (7 : Nat)) = .ref 7 :=
  ⟨((C5_destructor { m_handlers := ⟨1, 0, []⟩, m_can := some () } (.ref 7)).1 rfl).1,
   ((C5_destructor ({ m_handlers := ⟨1, 0, []⟩, m_can := some () } : can_router Nat)
      (.ref 7)).1 rfl).2 7,
   (C5_destructor { m_handlers := ⟨1, 0, []⟩, m_can := none } (.ref 7)).2 rfl⟩

/-- C9: after a move from an attached source, the moved-from router's store is
empty, so invoking its dispatch entry point performs no handler invocation; and
dispatch depends only on the store, never on the peripheral pointer, so the
same result holds whatever `m_can` is (no null dereference is possible on the
dispatch path). -/
theorem C9_moved_from_dispatch {ε ρ : Type} (self_id : ρ) (self p_other : can_router ε)
    (periph : canCallback ρ) (d s : can_router ε) (p : canCallback ρ)
    (hok : can_router.moveAssign self_id self p_other periph = .ok (d, s, p)) :
    s.m_handlers.entries = []
    ∧ (∀ m : message_t, can_router.call s m = none)
    ∧ (∀ (mc : Option Unit) (m : message_t),
        can_router.call ({ m_handlers := s.m_handlers, m_can := mc } : can_router ε) m = none) := by
  cases hcan : p_other.m_can with
  | none => simp [can_router.moveAssign, hcan] at hok
  | some u =>
    simp only [can_router.moveAssign, hcan, Except.ok.injEq, Prod.mk.injEq] at hok
    obtain ⟨-, hs, -⟩ := hok
    subst hs
    refine ⟨rfl, fun m => rfl, fun mc m => rfl⟩

/-- Witness for C9 at a concrete move whose source held one route. -/
theorem C9_moved_from_dispatch_witness :
    (static_list.moved ⟨3, 1, [(0, ({ id := 5 } : route Nat))]⟩).entries = []
    ∧ (∀ m : message_t,
        can_router.call
          ({ m_handlers := static_list.moved ⟨3, 1, [(0, { id := 5 })]⟩,
             m_can := none } : can_router Nat) m = none)
    ∧ (∀ (mc : Option Unit) (m : message_t),
        can_router.call
          ({ m_handlers := static_list.moved ⟨3, 1, [(0, { id := 5 })]⟩,
             m_can := mc } : can_router Nat) m = none) :=
  C9_moved_from_dispatch (2 : Nat)
    { m_handlers := ⟨3, 0, []⟩, m_can := some () }
    { m_handlers := ⟨3, 1, [(0, { id := 5 })]⟩, m_can := some () }
    (.ref 1) _ _ _ rfl

/-- C10: the move operations carry the unstated precondition that the source is
attached: with a detached (null `m_can`) source, both move assignment and move
construction hit the unconditional `m_can->on_receive(...)` null dereference;
with an attached source, both complete without fault. -/
theorem C10_move_null_source {ε ρ : Type} (self_id : ρ) (self p_other : can_router ε)
    (periph : canCallback ρ) :
    (p_other.m_can = none →
       can_router.moveAssign self_id self p_other periph = .error .null_dereference
       ∧ can_router.move_ctor self_id p_other periph = .error .null_dereference)
    ∧ (∀ u : Unit, p_other.m_can = some u →
       (∃ x, can_router.moveAssign self_id self p_other periph = .ok x)
       ∧ (∃ y, can_router.move_ctor self_id p_other periph = .ok y)) := by
  constructor
  · intro h
    constructor
    · simp [can_router.moveAssign, h]
    · simp [can_router.move_ctor, can_router.moveAssign, h]
  · intro u h
    constructor
    · exact ⟨({ m_handlers := p_other.m_handlers, m_can := some u },
              { m_handlers := p_other.m_handlers.moved, m_can := none },
              .ref self_id), by simp [can_router.moveAssign, h]⟩
    · exact ⟨({ m_handlers := p_other.m_handlers, m_can := some u },
              { m_handlers := p_other.m_handlers.moved, m_can := none },
              .ref self_id), by simp [can_router.move_ctor, can_router.moveAssign, h]⟩

/-- Witness for C10: a detached source makes both move operations fault; an
attached source makes both succeed. -/
theorem C10_move_null_source_witness :
    (can_router.moveAssign (2 : Nat)
        ({ m_handlers := ⟨1, 0, []⟩, m_can := some () } : can_router Nat)
        { m_handlers := ⟨1, 0, []⟩, m_can := none } (.ref 1) = .error .null_dereference
     ∧ can_router.move_ctor (2 : Nat)
        ({ m_handlers := ⟨1, 0, []⟩, m_can := none } : can_router Nat)
        (.ref 1) = .error .null_dereference)
    ∧ ((∃ x, can_router.moveAssign (2 : Nat)
          ({ m_handlers := ⟨1, 0, []⟩, m_can := some () } : can_router Nat)
          { m_handlers := ⟨1, 0, []⟩, m_can := some () } (.ref 1) = .ok x)
       ∧ (∃ y, can_router.move_ctor (2 : Nat)
          ({ m_handlers := ⟨1, 0, []⟩, m_can := some () } : can_router Nat)
          (.ref 1) = .ok y)) :=
  ⟨(C10_move_null_source 2
      { m_handlers := ⟨1, 0, []⟩, m_can := some () }
      { m_handlers := ⟨1, 0, []⟩, m_can := none } (.ref 1)).1 rfl,
   (C10_move_null_source 2
      { m_handlers := ⟨1, 0, []⟩, m_can := some () }
      { m_handlers := ⟨1, 0, []⟩, m_can := some () } (.ref 1)).2 () rfl⟩

theorem filter_erase_middle {α : Type} (l1 l2 : List (Nat × α)) (h : Nat) (r : α)
    (h1 : ∀ e ∈ l1, e.1 ≠ h) (h2 : ∀ e ∈ l2, e.1 ≠ h) :
    (l1 ++ (h, r) :: l2).filter (fun e => e.1 != h) = l1 ++ l2 := by
  rw [List.filter_append, List.filter_cons]
  have hself : (((h, r) : Nat × α).1 != h) = false := by simp
  rw [hself]
  simp only [Bool.false_eq_true, if_false]
  have e1 : l1.filter (fun e => e.1 != h) = l1 :=
    List.filter_eq_self.mpr (fun e he => by simpa using h1 e he)
  have e2 : l2.filter (fun e => e.1 != h) = l2 :=
    List.filter_eq_self.mpr (fun e he => by simpa using h2 e he)
  rw [e1, e2]

/-- C7: erasing the handle `h` of the route `(h, r)` removes exactly that entry,
leaving every other entry (handle id, route identifier, handler) in its original
relative order.  Afterwards, a frame whose identifier matched only the removed
route dispatches to no handler, and a frame matching both the removed route and
a later-registered route dispatches to that later route's handler. -/
theorem C7_handle_erase {ε : Type} (st : static_list (route ε))
    (l1 l2 : List (Nat × route ε)) (h : Nat) (r : route ε)
    (hsplit : st.entries = l1 ++ (h, r) :: l2)
    (h1 : ∀ e ∈ l1, e.1 ≠ h) (h2 : ∀ e ∈ l2, e.1 ≠ h) :
    (st.erase_handle h).entries = l1 ++ l2
    ∧ (∀ m : message_t, m.id = r.id →
        (∀ e ∈ l1, (Prod.snd e).id ≠ m.id) → (∀ e ∈ l2, (Prod.snd e).id ≠ m.id) →
        canRouterDispatch (st.erase_handle h).values m = none)
    ∧ (∀ (m : message_t) (l2a l2b : List (Nat × route ε)) (e2 : Nat × route ε),
        m.id = r.id → l2 = l2a ++ e2 :: l2b →
        (∀ e ∈ l1, (Prod.snd e).id ≠ m.id) → (∀ e ∈ l2a, (Prod.snd e).id ≠ m.id) →
        (Prod.snd e2).id = m.id →
        canRouterDispatch (st.erase_handle h).values m = some ((Prod.snd e2).handler, m)) := by
  have hent : (st.erase_handle h).entries = l1 ++ l2 := by
    simp only [static_list.erase_handle, hsplit]
    exact filter_erase_middle l1 l2 h r h1 h2
  have hvals : (st.erase_handle h).values = l1.map Prod.snd ++ l2.map Prod.snd := by
    simp [static_list.values, hent]
  refine ⟨hent, ?_, ?_⟩
  · intro m hm hn1 hn2
    rw [hvals]
    apply dispatch_none_of_no_match
    intro x hx
    rcases List.mem_append.mp hx with hx1 | hx2
    · obtain ⟨e, he, rfl⟩ := List.mem_map.mp hx1
      exact hn1 e he
    · obtain ⟨e, he, rfl⟩ := List.mem_map.mp hx2
      exact hn2 e he
  · intro m l2a l2b e2 hm hl2 hn1 hn2 hmatch
    rw [hvals, hl2]
    have hre : (l2a ++ e2 :: l2b).map Prod.snd = l2a.map Prod.snd ++ e2.2 :: l2b.map Prod.snd := by
      simp
    rw [hre, ← List.append_assoc]
    rw [dispatch_append_skip]
    · exact dispatch_cons_match e2.2 (l2b.map Prod.snd) m hmatch.symm
    · intro x hx
      rcases List.mem_append.mp hx with hx1 | hx2
      · obtain ⟨e, he, rfl⟩ := List.mem_map.mp hx1
        exact hn1 e he
      · obtain ⟨e, he, rfl⟩ := List.mem_map.mp hx2
        exact hn2 e he

/-- Witness for C7: a store [id 5 (handle 0), id 5 (handle 1), id 6 (handle 2)];
erasing handle 0 leaves the other two entries in order; a frame with id 5 then
dispatches to the handler registered under handle 1. -/
theorem C7_handle_erase_witness :
    (static_list.erase_handle
        (⟨4, 3, [(0, { id := 5, handler := fun _ => [1] }),
                 (1, { id := 5, handler := fun _ => [2] }),
                 (2, { id := 6, handler := fun _ => [3] })]⟩ :
          static_list (route Nat)) 0).entries =
      [] ++ [(1, { id := 5, handler := fun _ => [2] }),
             (2, { id := 6, handler := fun _ => [3] })]
    ∧ canRouterDispatch
        (static_list.values (static_list.erase_handle
          (⟨4, 3, [(0, { id := 5, handler := fun _ => [1] }),
                   (1, { id := 5, handler := fun _ => [2] }),
                   (2, { id := 6, handler := fun _ => [3] })]⟩ :
            static_list (route Nat)) 0))
        { id := 5 } =
      some ((Prod.snd ((1 : Nat), ({ id := 5, handler := fun _ => [2] } : route Nat))).handler,
        { id := 5 }) := by
  have base := C7_handle_erase
    (⟨4, 3, [(0, { id := 5, handler := fun _ => [1] }),
             (1, { id := 5, handler := fun _ => [2] }),
             (2, { id := 6, handler := fun _ => [3] })]⟩ : static_list (route Nat))
    [] [(1, { id := 5, handler := fun _ => [2] }), (2, { id := 6, handler := fun _ => [3] })]
    0 { id := 5, handler := fun _ => [1] }
    rfl
    (by intro e he; cases he)
    (by
      intro e he
      simp only [List.mem_cons, List.not_mem_nil, or_false] at he
      rcases he with rfl | rfl <;> decide)
  refine ⟨base.1, ?_⟩
  exact base.2.2 { id := 5 }
    [] [(2, { id := 6, handler := fun _ => [3] })]
    ((1 : Nat), ({ id := 5, handler := fun _ => [2] } : route Nat))
    rfl rfl
    (by intro e he; cases he)
    (by intro e he; cases he)
    rfl

/-- C8: the one-argument registration is observably identical to the
two-argument registration with the `noop` handler (the appended route's handler
is `noop`), and a frame whose first match is such a default route produces the
`noop` invocation, whose observable effect is empty — the message is dropped. -/
theorem C8_default_noop {ε : Type} (self : can_router ε) (p_id : Nat)
    (hs : List (route ε)) (m : message_t)
    (h1 : m.id = p_id) (h2 : ∀ r ∈ hs, r.id ≠ m.id) :
    can_router.add_message_callback self p_id =
      can_router.add_message_callback_handler self p_id noop
    ∧ canRouterDispatch (hs ++ [({ id := p_id } : route ε)]) m = some (noop, m)
    ∧ invocationEffects (canRouterDispatch (hs ++ [({ id := p_id } : route ε)]) m) = [] := by
  have hd : canRouterDispatch (hs ++ [({ id := p_id } : route ε)]) m = some (noop, m) := by
    rw [dispatch_append_skip hs _ m h2]
    exact dispatch_cons_match { id := p_id } [] m h1
  refine ⟨rfl, hd, ?_⟩
  rw [hd]
  rfl

/-- Witness for C8: registering id 5 with no handler on an empty-store router,
then dispatching a frame with id 5 past a non-matching id-6 route. -/
theorem C8_default_noop_witness :
    can_router.add_message_callback
        ({ m_handlers := ⟨4, 0, []⟩, m_can := some () } : can_router Nat) 5 =
      can_router.add_message_callback_handler
        ({ m_handlers := ⟨4, 0, []⟩, m_can := some () } : can_router Nat) 5 noop
    ∧ canRouterDispatch ([{ id := 6, handler := fun _ => [1] }] ++ [({ id := 5 } : route Nat)])
        { id := 5 } = some (noop, { id := 5 })
    ∧ invocationEffects
        (canRouterDispatch ([{ id := 6, handler := fun _ => [1] }] ++ [({ id := 5 } : route Nat)])
          { id := 5 }) = [] :=
  C8_default_noop { m_handlers := ⟨4, 0, []⟩, m_can := some () } 5
    [{ id := 6, handler := fun _ => [1] }] { id := 5 }
    rfl
    (by
      intro r hr
      simp only [List.mem_cons, List.not_mem_nil, or_false] at hr
      subst hr
      decide)

/-- The lifecycle operations the public API offers on router instances
(identified by `ρ`) sharing one peripheral: construction from the peripheral,
move assignment (move construction behaves identically on the machine state),
and destruction. -/
inductive RouterOp (ρ : Type) where
  | construct : ρ → RouterOp ρ
  | moveAssignOp : ρ → ρ → RouterOp ρ
  | destroy : ρ → RouterOp ρ

/-- The joint state of all router instances and the peripheral's receive slot.
`attachedOf r` models `r`'s `m_can != nullptr` (a destroyed instance counts as
detached); `handlersOf r` is `r`'s route entries; `target` is the peripheral's
receive-callback slot; `crashed` records that a null `m_can` was dereferenced. -/
structure TraceState (ε ρ : Type) where
  attachedOf : ρ → Bool
  handlersOf : ρ → List (Nat × route ε)
  target : canCallback ρ
  crashed : Bool

/-- One lifecycle step.  `construct r`: fresh store, `m_can` bound, then
`m_can->on_receive(std::ref(*this))`.  `moveAssignOp d s` follows the
move-assignment body: `d.m_handlers = std::move(s.m_handlers)` (emptying `s`),
`d.m_can = s.m_can`, `d.m_can->on_receive(std::ref(*d))` — a crash when `s` was
detached — then `s.m_can = nullptr` (written last, so a self-move ends detached).
`destroy r`: `if (r.m_can) r.m_can->on_receive(noop)`, and the instance is gone
(modelled as detached with no entries). -/
def execOp {ε ρ : Type} [DecidableEq ρ] (st : TraceState ε ρ) (op : RouterOp ρ) :
    TraceState ε ρ :=
  if st.crashed then st else
  match op with
  | .construct r =>
    { st with
      attachedOf := fun x => if x = r then true else st.attachedOf x,
      handlersOf := fun x => if x = r then [] else st.handlersOf x,
      target := .ref r }
  | .moveAssignOp d s =>
    if st.attachedOf s then
      { st with
        attachedOf := fun x => if x = s then false else if x = d then true else st.attachedOf x,
        handlersOf := fun x => if x = s then [] else if x = d then st.handlersOf s
                               else st.handlersOf x,
        target := .ref d }
    else
      { st with crashed := true }
  | .destroy r =>
    if st.attachedOf r then
      { st with
        attachedOf := fun x => if x = r then false else st.attachedOf x,
        handlersOf := fun x => if x = r then [] else st.handlersOf x,
        target := .noop }
    else
      { st with
        attachedOf := fun x => if x = r then false else st.attachedOf x,
        handlersOf := fun x => if x = r then [] else st.handlersOf x }

/-- Run a sequence of lifecycle operations. -/
def execTrace {ε ρ : Type} [DecidableEq ρ] (st : TraceState ε ρ) (ops : List (RouterOp ρ)) :
    TraceState ε ρ :=
  ops.foldl execOp st

/-- The successive attached/detached states of instance `r` along a trace
(including the initial state). -/
def attachedTrace {ε ρ : Type} [DecidableEq ρ] (st : TraceState ε ρ)
    (ops : List (RouterOp ρ)) (r : ρ) : List Bool :=
  match ops with
  | [] => [st.attachedOf r]
  | op :: rest => st.attachedOf r :: attachedTrace (execOp st op) rest r

/-- Drop elements up to and including the first `true`. -/
def afterTrue : List Bool → List Bool
  | [] => []
  | true :: rest => rest
  | false :: rest => afterTrue rest

/-- Drop elements up to and including the first `false`. -/
def afterFalse : List Bool → List Bool
  | [] => []
  | false :: rest => rest
  | true :: rest => afterFalse rest

/-- `true` when the state sequence contains an active state, then a detached
state, then an active state again — i.e. an instance was re-activated after
having become detached. -/
def hadReactivation (l : List Bool) : Bool :=
  (afterFalse (afterTrue l)).any (fun b => b)

/-- The claim's transition discipline for instance `r` on a trace: once active,
the instance may only become detached and never returns to active. -/
def onlyDetachTransitions {ε ρ : Type} [DecidableEq ρ] (st : TraceState ε ρ)
    (ops : List (RouterOp ρ)) (r : ρ) : Prop :=
  hadReactivation (attachedTrace st ops r) = false

/-- The claim's binding invariant for instance `r` in a state: if `r` is
attached (not moved-from, not destroyed), the peripheral's receive slot is
bound to exactly `r`. -/
def activeImpliesTarget {ε ρ : Type} (st : TraceState ε ρ) (r : ρ) : Prop :=
  st.attachedOf r = true → st.target = .ref r

/-- The all-detached initial state: no instance constructed, no routes, the
receive slot at the no-op handler. -/
def traceStart : TraceState Nat Nat :=
  { attachedOf := fun _ => false, handlersOf := fun _ => [], target := .noop, crashed := false }

/-- Counterexample to C6.  First: instance 0 is constructed (active), moved
from into instance 1 (detached), then re-activated by being the destination of
a move assignment from instance 1 — so active→detached is not the only
transition and does not occur at most once per instance.  Second: constructing
instance 1 on the peripheral while instance 0 is still attached leaves
instance 0 attached (never moved-from, never destroyed) while the receive slot
is bound to instance 1, not instance 0. -/
theorem C6_states_counterexample :
    ¬ onlyDetachTransitions traceStart
        [.construct 0, .moveAssignOp 1 0, .moveAssignOp 0 1] 0
    ∧ ¬ activeImpliesTarget (execTrace traceStart [.construct 0, .construct 1]) 0 := by
  constructor
  · intro hprop
    have hre : hadReactivation (attachedTrace traceStart
        [.construct 0, .moveAssignOp 1 0, .moveAssignOp 0 1] 0) = true := by decide
    unfold onlyDetachTransitions at hprop
    rw [hre] at hprop
    cases hprop
  · intro hprop
    unfold activeImpliesTarget at hprop
    have h0 : (execTrace traceStart [.construct 0, .construct 1]).attachedOf 0 = true := by
      decide
    have ht := hprop h0
    have h1 : (execTrace traceStart [.construct 0, .construct 1]).target = .ref 1 := by
      decide
    rw [h1] at ht
    exact absurd ht (by decide)

/-- C6 as amended: each instance is at any time either attached (active) or
detached; in any non-crashed state, a step detaches an active instance only
when that instance is the source of a move assignment or is destroyed; a step
activates a detached instance only when that instance is constructed or is the
destination of a move assignment (so a moved-from instance can be re-activated,
and active→detached is not limited to once per instance); and the peripheral's
receive slot is bound to the instance's dispatch entry point immediately after
its construction and immediately after every move assignment into it from an
attached source. -/
theorem C6_amended_lifecycle {ε ρ : Type} [DecidableEq ρ] (st : TraceState ε ρ)
    (op : RouterOp ρ) (r : ρ) (hnc : st.crashed = false) :
    ((st.attachedOf r = true ∧ (execOp st op).attachedOf r = false) →
       (∃ d, op = .moveAssignOp d r) ∨ op = .destroy r)
    ∧ ((st.attachedOf r = false ∧ (execOp st op).attachedOf r = true) →
       op = .construct r ∨ ∃ s, op = .moveAssignOp r s)
    ∧ (op = .construct r → (execOp st op).target = .ref r)
    ∧ (∀ s, op = .moveAssignOp r s → st.attachedOf s = true →
       (execOp st op).target = .ref r) := by
  refine ⟨?_, ?_, ?_, ?_⟩
  · rintro ⟨hbef, haft⟩
    cases op with
    | construct c =>
      by_cases hrc : r = c
      · simp [execOp, hnc, hrc] at haft
      · simp [execOp, hnc, hrc] at haft
        exact absurd hbef (by simp [haft])
    | moveAssignOp d s =>
      by_cases hs : st.attachedOf s
      · by_cases hrs : r = s
        · exact Or.inl ⟨d, by rw [hrs]⟩
        · by_cases hrd : r = d
          · simp [execOp, hnc, hs, hrs, hrd] at haft
            exact absurd (hrd.trans haft) hrs
          · simp [execOp, hnc, hs, hrs, hrd] at haft
            exact absurd hbef (by simp [haft])
      · simp [execOp, hnc, hs] at haft
        exact absurd hbef (by simp [haft])
    | destroy c =>
      by_cases hrc : r = c
      · exact Or.inr (by rw [hrc])
      · by_cases hc : st.attachedOf c <;>
          simp [execOp, hnc, hc, hrc] at haft <;>
          exact absurd hbef (by simp [haft])
  · rintro ⟨hbef, haft⟩
    cases op with
    | construct c =>
      by_cases hrc : r = c
      · exact Or.inl (by rw [hrc])
      · simp [execOp, hnc, hrc] at haft
        exact absurd hbef (by simp [haft])
    | moveAssignOp d s =>
      by_cases hs : st.attachedOf s
      · by_cases hrs : r = s
        · simp [execOp, hnc, hs, hrs] at haft
        · by_cases hrd : r = d
          · exact Or.inr ⟨s, by rw [hrd]⟩
          · simp [execOp, hnc, hs, hrs, hrd] at haft
            exact absurd hbef (by simp [haft])
      · simp [execOp, hnc, hs] at haft
        exact absurd hbef (by simp [haft])
    | destroy c =>
      by_cases hrc : r = c
      · by_cases hc : st.attachedOf c <;> simp [execOp, hnc, hc, hrc] at haft
      · by_cases hc : st.attachedOf c <;>
          simp [execOp, hnc, hc, hrc] at haft <;>
          exact absurd hbef (by simp [haft])
  · rintro rfl
    simp [execOp, hnc]
  · rintro s rfl hs
    simp [execOp, hnc, hs]

/-- Witness for the amended C6 at a concrete state and step: constructing
instance 3 from the all-detached state. -/
theorem C6_amended_lifecycle_witness :
    (((traceStart.attachedOf 3 = true ∧ (execOp traceStart (.construct 3)).attachedOf 3 = false) →
       (∃ d, RouterOp.construct 3 = .moveAssignOp d 3) ∨ RouterOp.construct 3 = .destroy 3))
    ∧ ((traceStart.attachedOf 3 = false ∧ (execOp traceStart (.construct 3)).attachedOf 3 = true) →
       RouterOp.construct 3 = .construct 3 ∨ ∃ s, RouterOp.construct 3 = .moveAssignOp 3 s)
    ∧ (RouterOp.construct 3 = .construct 3 → (execOp traceStart (.construct 3)).target = .ref 3)
    ∧ (∀ s, RouterOp.construct 3 = .moveAssignOp 3 s → traceStart.attachedOf s = true →
       (execOp traceStart (.construct 3)).target = .ref 3) :=
  C6_amended_lifecycle traceStart (.construct 3) 3 rfl
